import Mathlib

/-
Shallow embedding of the serverless-cost-calculator core
(src/calculator.rs and src/source.rs).

Conventions of the embedding:
* Rust `u64` becomes `Nat`; all source arithmetic on these fields stays far
  below 2^64, and every division in the source is truncating unsigned
  division, which is exactly `Nat` division.
* Rust `f64` pricing arithmetic becomes `ℚ`; the source only scales small
  integers by decimal price constants and powers of two, which `ℚ` models
  exactly.
* `chrono` timestamps are modelled at minute granularity as `Int` (minutes
  since an arbitrary epoch), so `end.sub(start).num_minutes()` becomes
  `end_time - start_time`.
* The `OutputFormat` parameter of the normalizers is used by the source only
  to print advisory warnings; it never influences the computed values, so it
  is dropped here.
* `anyhow!("The region '{}' is invalid", region)` is modelled as a structured
  error constructor carrying the offending region string.
-/

namespace SCC

/-- Mirrors `RequestDescription` in src/source.rs. -/
structure RequestDescription where
  requests_per_hour : Option Nat
  bytes_per_hour : Nat
deriving DecidableEq, Repr

/-- Mirrors `StorageDescription` in src/source.rs. -/
structure StorageDescription where
  data_in_bytes : Nat
  index_in_bytes : Nat
deriving DecidableEq, Repr

/-- Mirrors `WorkloadDescription` in src/source.rs. -/
structure WorkloadDescription where
  read : RequestDescription
  write : RequestDescription
  egress : RequestDescription
  storage : StorageDescription
deriving DecidableEq, Repr

/-- Mirrors `WorkloadUsage` in src/calculator.rs. -/
structure WorkloadUsage where
  row_based_storage_in_mib : Nat
  network_egress_in_mib : Nat
  request_units_in_million : Nat
deriving DecidableEq, Repr

/-- Mirrors `WorkloadEstimation` in src/calculator.rs (f64 fields as ℚ). -/
structure WorkloadEstimation where
  storage_cost : ℚ
  request_units_cost : ℚ
  free_credit : ℚ
deriving DecidableEq, Repr

/-- `const KILO: u64 = 1024` in src/calculator.rs. -/
def KILO : Nat := 1024

/-- `const MEGA: u64 = KILO * 1024` in src/calculator.rs. -/
def MEGA : Nat := KILO * 1024

/-- `const HOURS_PER_MONTH: u64 = 730` in src/calculator.rs. -/
def HOURS_PER_MONTH : Nat := 730

/-- Mirrors `calculate` in src/calculator.rs: per-usage pricing arithmetic. -/
def calculate (row_based_price ru_price free_credit : ℚ)
    (usages : List WorkloadUsage) : List WorkloadEstimation :=
  usages.map fun usage =>
    { storage_cost := (usage.row_based_storage_in_mib : ℚ) * row_based_price / 1024
      request_units_cost :=
        ((usage.network_egress_in_mib : ℚ) / 1024 + (usage.request_units_in_million : ℚ))
          * ru_price
      free_credit := free_credit }

/-- The read-side request-unit rate computed inside `estimate_usages`
(src/calculator.rs line 45): `requests_per_hour.unwrap_or(0) / 8 + bytes_per_hour / (64 * KILO)`. -/
def WorkloadDescription.read_request_units_per_hour (w : WorkloadDescription) : Nat :=
  w.read.requests_per_hour.getD 0 / 8 + w.read.bytes_per_hour / (64 * KILO)

/-- The write-side request-unit rate computed inside `estimate_usages`
(src/calculator.rs line 47): `(requests_per_hour.unwrap_or(0) + bytes_per_hour / KILO) * 3`. -/
def WorkloadDescription.write_request_units_per_hour (w : WorkloadDescription) : Nat :=
  (w.write.requests_per_hour.getD 0 + w.write.bytes_per_hour / KILO) * 3

/-- `request_units_per_hour` inside `estimate_usages` (src/calculator.rs line 50). -/
def WorkloadDescription.request_units_per_hour (w : WorkloadDescription) : Nat :=
  w.read_request_units_per_hour + w.write_request_units_per_hour

/-- Mirrors `estimate_usages` in src/calculator.rs. -/
def estimate_usages (workloads : List WorkloadDescription) : List WorkloadUsage :=
  workloads.map fun workload =>
    { row_based_storage_in_mib :=
        (workload.storage.data_in_bytes + workload.storage.index_in_bytes) / MEGA
      network_egress_in_mib := workload.egress.bytes_per_hour * HOURS_PER_MONTH / MEGA
      request_units_in_million := workload.request_units_per_hour * HOURS_PER_MONTH / MEGA }

/-- The single error kind of the calculator, mirroring
`anyhow!("The region '{}' is invalid", region)` in src/calculator.rs:
an invalid-region error carrying the offending region string. -/
inductive EstimateError where
  | invalidRegion (region : String)
deriving DecidableEq, Repr

/-- Mirrors `estimate` in src/calculator.rs: the region match arms in source
order, each calling `calculate` with that region's pricing triple, and the
fall-through error for any other string. -/
def estimate (region : String) (workloads : List WorkloadDescription) :
    Except EstimateError (List WorkloadEstimation) :=
  let usages := estimate_usages workloads
  if region = "us-east-1" then .ok (calculate 0.2 0.1 6.0 usages)
  else if region = "us-west-2" then .ok (calculate 0.2 0.1 6.0 usages)
  else if region = "eu-central-1" then .ok (calculate 0.24 0.12 7.2 usages)
  else if region = "ap-southeast-1" then .ok (calculate 0.24 0.12 7.2 usages)
  else if region = "ap-northeast-1" then .ok (calculate 0.24 0.12 7.2 usages)
  else .error (.invalidRegion region)

/-- The five region strings of the pricing table in `estimate`. -/
def validRegions : List String :=
  ["us-east-1", "us-west-2", "eu-central-1", "ap-southeast-1", "ap-northeast-1"]

/-- `const TARGET_REGION_SIZE: u64 = 256 * 1024 * 1024` in src/source.rs. -/
def TARGET_REGION_SIZE : Nat := 256 * 1024 * 1024

/-- `const MINUTES_PER_HOUR: u64 = 60` in src/source.rs. -/
def MINUTES_PER_HOUR : Nat := 60

/-- Mirrors `TablesInformation` in src/source.rs (each column may be NULL). -/
structure TablesInformation where
  total_rows : Option Nat
  total_data_in_bytes : Option Nat
  total_index_in_bytes : Option Nat
deriving DecidableEq, Repr

/-- Mirrors `MySQLStatementsSummary` in src/source.rs; the two `DateTime<Utc>`
fields are modelled as minutes since an arbitrary epoch. -/
structure MySQLStatementsSummary where
  read_queries : Nat
  read_rows : Nat
  sent_rows : Nat
  write_queries : Nat
  write_rows : Nat
  start_time : Int
  end_time : Int
deriving DecidableEq, Repr

/-- `max(summary.end_time.sub(summary.start_time).num_minutes(), 1) as u64`
in `WorkloadDescription::mysql` (src/source.rs line 113). -/
def MySQLStatementsSummary.duration_in_minutes (s : MySQLStatementsSummary) : Nat :=
  (max (s.end_time - s.start_time) 1).toNat

/-- `let total_storage_in_bytes = max(index.unwrap_or(0) + data.unwrap_or(0), 1)`
in `WorkloadDescription::mysql` (src/source.rs line 116). -/
def TablesInformation.total_storage_in_bytes (t : TablesInformation) : Nat :=
  max (t.total_index_in_bytes.getD 0 + t.total_data_in_bytes.getD 0) 1

/-- `let average_row_size_in_bytes = total_storage_in_bytes / max(total_rows.unwrap_or(0), 1)`
in `WorkloadDescription::mysql` (src/source.rs line 120). -/
def TablesInformation.average_row_size_in_bytes (t : TablesInformation) : Nat :=
  t.total_storage_in_bytes / max (t.total_rows.getD 0) 1

/-- `let estimated_number_of_regions = total_storage_in_bytes / TARGET_REGION_SIZE`
in `WorkloadDescription::mysql` (src/source.rs line 122). -/
def TablesInformation.estimated_number_of_regions (t : TablesInformation) : Nat :=
  t.total_storage_in_bytes / TARGET_REGION_SIZE

/-- `let read_bytes_per_hour = MINUTES_PER_HOUR * average_row_size_in_bytes * summary.read_rows / duration_in_minutes`. -/
def mysql_read_bytes_per_hour (t : TablesInformation) (s : MySQLStatementsSummary) : Nat :=
  MINUTES_PER_HOUR * t.average_row_size_in_bytes * s.read_rows / s.duration_in_minutes

/-- `let read_queries_per_hour = max(MINUTES_PER_HOUR * summary.read_queries / duration_in_minutes, 1)`. -/
def mysql_read_queries_per_hour (s : MySQLStatementsSummary) : Nat :=
  max (MINUTES_PER_HOUR * s.read_queries / s.duration_in_minutes) 1

/-- `let read_regions_per_query = max(read_bytes_per_request * estimated_number_of_regions / total_storage_in_bytes, 1)`
where `read_bytes_per_request = read_bytes_per_hour / read_queries_per_hour`. -/
def mysql_read_regions_per_query (t : TablesInformation) (s : MySQLStatementsSummary) : Nat :=
  max ((mysql_read_bytes_per_hour t s / mysql_read_queries_per_hour s)
        * t.estimated_number_of_regions / t.total_storage_in_bytes) 1

/-- `let write_bytes_per_hour = MINUTES_PER_HOUR * average_row_size_in_bytes * summary.write_rows / duration_in_minutes`. -/
def mysql_write_bytes_per_hour (t : TablesInformation) (s : MySQLStatementsSummary) : Nat :=
  MINUTES_PER_HOUR * t.average_row_size_in_bytes * s.write_rows / s.duration_in_minutes

/-- `let write_queries_per_hour = max(MINUTES_PER_HOUR * summary.write_queries / duration_in_minutes, 1)`. -/
def mysql_write_queries_per_hour (s : MySQLStatementsSummary) : Nat :=
  max (MINUTES_PER_HOUR * s.write_queries / s.duration_in_minutes) 1

/-- `let write_regions_per_query = max(write_bytes_per_query * estimated_number_of_regions / total_storage_in_bytes, 1)`
where `write_bytes_per_query = write_bytes_per_hour / write_queries_per_hour`. -/
def mysql_write_regions_per_query (t : TablesInformation) (s : MySQLStatementsSummary) : Nat :=
  max ((mysql_write_bytes_per_hour t s / mysql_write_queries_per_hour s)
        * t.estimated_number_of_regions / t.total_storage_in_bytes) 1

/-- Mirrors `WorkloadDescription::mysql` in src/source.rs (the `OutputFormat`
argument only prints advisory warnings and is dropped; each `let` of the
source is one of the helper definitions above). -/
def WorkloadDescription.mysql (t : TablesInformation) (s : MySQLStatementsSummary) :
    WorkloadDescription :=
  { read :=
      { requests_per_hour := some (mysql_read_queries_per_hour s * mysql_read_regions_per_query t s)
        bytes_per_hour := mysql_read_bytes_per_hour t s }
    write :=
      { requests_per_hour := some (mysql_write_queries_per_hour s * mysql_write_regions_per_query t s)
        bytes_per_hour := mysql_write_bytes_per_hour t s }
    egress :=
      { requests_per_hour := none
        bytes_per_hour :=
          MINUTES_PER_HOUR * t.average_row_size_in_bytes * s.sent_rows / s.duration_in_minutes }
    storage :=
      { data_in_bytes := t.total_data_in_bytes.getD 0
        index_in_bytes := t.total_index_in_bytes.getD 0 } }

/-- Mirrors `TiDBStatementsSummary` in src/source.rs. -/
structure TiDBStatementsSummary where
  read_queries : Nat
  read_rows : Nat
  sent_rows : Nat
  write_queries : Nat
  write_bytes : Nat
  start_time : Int
  end_time : Int
deriving DecidableEq, Repr

/-- Mirrors `TiDBSystemMetrics` in src/source.rs. -/
structure TiDBSystemMetrics where
  write_bytes_per_hour : Nat
  write_requests_per_hour : Nat
  read_bytes_per_hour : Nat
  read_requests_per_hour : Nat
deriving DecidableEq, Repr

/-- `max(summary.end_time.sub(summary.start_time).num_minutes(), 1) as u64`
in `WorkloadDescription::tidb` (src/source.rs line 177). -/
def TiDBStatementsSummary.duration_in_minutes (s : TiDBStatementsSummary) : Nat :=
  (max (s.end_time - s.start_time) 1).toNat

/-- Mirrors `WorkloadDescription::tidb` in src/source.rs (the `OutputFormat`
argument only prints advisory warnings and is dropped). Note the summary
branch divides the UNCLAMPED storage sum by `max(1, rows)`, unlike the
MySQL normalizer. -/
def WorkloadDescription.tidb (t : TablesInformation) (summary : Option TiDBStatementsSummary)
    (metrics : TiDBSystemMetrics) : WorkloadDescription :=
  let p : Nat × Nat :=
    match summary with
    | some s =>
      let average_row_size_in_bytes :=
        (t.total_index_in_bytes.getD 0 + t.total_data_in_bytes.getD 0)
          / max 1 (t.total_rows.getD 0)
      (MINUTES_PER_HOUR * s.write_bytes / s.duration_in_minutes,
       MINUTES_PER_HOUR * s.sent_rows * average_row_size_in_bytes / s.duration_in_minutes)
    | none => (metrics.write_bytes_per_hour, 0)
  { read :=
      { requests_per_hour := some metrics.read_requests_per_hour
        bytes_per_hour := metrics.read_bytes_per_hour }
    write :=
      { requests_per_hour := some metrics.write_requests_per_hour
        bytes_per_hour := p.1 }
    egress :=
      { requests_per_hour := none
        bytes_per_hour := p.2 }
    storage :=
      { data_in_bytes := t.total_data_in_bytes.getD 0
        index_in_bytes := t.total_index_in_bytes.getD 0 } }

/-- Mirrors one row `MySQLStatementSummary` of
`performance_schema.events_statements_summary_by_digest` in src/source.rs. -/
structure MySQLStatementSummary where
  sql : String
  count : Nat
  affected_rows : Nat
  sent_rows : Nat
  read_rows : Nat
  first_seen : Int
  last_seen : Int
deriving DecidableEq, Repr

/-- The anchored alternation `Regex::new("^INSERT |^DELETE |^UPDATE ")` applied
with `find` in `read_mysql_statements_summary` (src/source.rs line 366): it
matches exactly when the digest text starts with one of the three literals
(case-sensitive, trailing space included). Prefix testing is done on the
character lists of the strings. -/
def is_write_pattern (sql : String) : Bool :=
  "INSERT ".toList.isPrefixOf sql.toList
    || "DELETE ".toList.isPrefixOf sql.toList
    || "UPDATE ".toList.isPrefixOf sql.toList

/-- The fold step of `read_mysql_statements_summary` in src/source.rs. -/
def mysql_summary_step (acc : MySQLStatementsSummary) (statement : MySQLStatementSummary) :
    MySQLStatementsSummary :=
  { end_time := max statement.last_seen acc.end_time
    start_time := min statement.first_seen acc.start_time
    read_rows := acc.read_rows + statement.read_rows
    sent_rows := acc.sent_rows + statement.sent_rows
    write_rows := acc.write_rows + statement.affected_rows
    write_queries :=
      if is_write_pattern statement.sql then acc.write_queries + statement.count
      else acc.write_queries
    read_queries :=
      if is_write_pattern statement.sql then acc.read_queries
      else acc.read_queries + statement.count }

/-- Mirrors the pure aggregation of `read_mysql_statements_summary` in
src/source.rs: `now` and `seven_days_ago` stand for `Utc::now()` and
`now - 7 days`; the empty-result early return and the fold are as in source. -/
def read_mysql_statements_summary (now seven_days_ago : Int)
    (statements_summary : List MySQLStatementSummary) : MySQLStatementsSummary :=
  if statements_summary.isEmpty then
    { read_queries := 0, read_rows := 0, sent_rows := 0, write_queries := 0, write_rows := 0
      start_time := seven_days_ago, end_time := now }
  else
    statements_summary.foldl mysql_summary_step
      { read_queries := 0, read_rows := 0, sent_rows := 0, write_queries := 0, write_rows := 0
        start_time := now, end_time := seven_days_ago }

/-! ### Derived helpers for stating and proving the claims -/

/-- Storage price of a valid region, read off the match arms of `estimate`. -/
def storagePrice (region : String) : ℚ :=
  if region = "us-east-1" then 0.2 else if region = "us-west-2" then 0.2 else 0.24

/-- Request-unit price of a valid region, read off the match arms of `estimate`. -/
def ruPrice (region : String) : ℚ :=
  if region = "us-east-1" then 0.1 else if region = "us-west-2" then 0.1 else 0.12

/-- Free monthly credit of a valid region, read off the match arms of `estimate`. -/
def freeCredit (region : String) : ℚ :=
  if region = "us-east-1" then 6.0 else if region = "us-west-2" then 6.0 else 7.2

/-- On any valid region, `estimate` succeeds with that region's pricing triple. -/
theorem estimate_valid (region : String) (h : region ∈ validRegions)
    (ws : List WorkloadDescription) :
    estimate region ws =
      .ok (calculate (storagePrice region) (ruPrice region) (freeCredit region)
            (estimate_usages ws)) := by
  simp only [validRegions, List.mem_cons, List.not_mem_nil, or_false] at h
  rcases h with h | h | h | h | h <;> subst h <;>
    simp [estimate, storagePrice, ruPrice, freeCredit]

theorem storagePrice_pos (region : String) : 0 < storagePrice region := by
  unfold storagePrice; split_ifs <;> norm_num

theorem ruPrice_pos (region : String) : 0 < ruPrice region := by
  unfold ruPrice; split_ifs <;> norm_num

/-- The storage cost `estimate` reports for a single workload (0 if the
region is invalid; on valid regions this is the reported `storage_cost`). -/
def storageCostOf (region : String) (w : WorkloadDescription) : ℚ :=
  match estimate region [w] with
  | .ok [e] => e.storage_cost
  | _ => 0

/-- The request-unit cost `estimate` reports for a single workload (0 if the
region is invalid; on valid regions this is the reported `request_units_cost`). -/
def ruCostOf (region : String) (w : WorkloadDescription) : ℚ :=
  match estimate region [w] with
  | .ok [e] => e.request_units_cost
  | _ => 0

theorem storageCostOf_valid (region : String) (h : region ∈ validRegions)
    (w : WorkloadDescription) :
    storageCostOf region w =
      (((w.storage.data_in_bytes + w.storage.index_in_bytes) / MEGA : Nat) : ℚ)
        * storagePrice region / 1024 := by
  rw [storageCostOf, estimate_valid region h [w]]
  simp [calculate, estimate_usages]

theorem ruCostOf_valid (region : String) (h : region ∈ validRegions)
    (w : WorkloadDescription) :
    ruCostOf region w =
      (((w.egress.bytes_per_hour * HOURS_PER_MONTH / MEGA : Nat) : ℚ) / 1024
        + ((w.request_units_per_hour * HOURS_PER_MONTH / MEGA : Nat) : ℚ))
        * ruPrice region := by
  rw [ruCostOf, estimate_valid region h [w]]
  simp [calculate, estimate_usages]

/-- Replace `storage.data_in_bytes` of a workload. -/
def setDataBytes (w : WorkloadDescription) (d : Nat) : WorkloadDescription :=
  { w with storage := { w.storage with data_in_bytes := d } }

/-- Replace `read.requests_per_hour` of a workload by a present value. -/
def setReadRequests (w : WorkloadDescription) (r : Nat) : WorkloadDescription :=
  { w with read := { w.read with requests_per_hour := some r } }

/-- Replace `write.requests_per_hour` of a workload by a present value. -/
def setWriteRequests (w : WorkloadDescription) (r : Nat) : WorkloadDescription :=
  { w with write := { w.write with requests_per_hour := some r } }

/-- The all-zero workload: every numeric field 0, request rates present as 0. -/
def zeroWorkload : WorkloadDescription :=
  { read := { requests_per_hour := some 0, bytes_per_hour := 0 }
    write := { requests_per_hour := some 0, bytes_per_hour := 0 }
    egress := { requests_per_hour := none, bytes_per_hour := 0 }
    storage := { data_in_bytes := 0, index_in_bytes := 0 } }

/-- 1 GiB of data, everything else zero (the storage pricing example). -/
def gibWorkload : WorkloadDescription :=
  { read := { requests_per_hour := some 0, bytes_per_hour := 0 }
    write := { requests_per_hour := some 0, bytes_per_hour := 0 }
    egress := { requests_per_hour := none, bytes_per_hour := 0 }
    storage := { data_in_bytes := 1024 * 1024 * 1024, index_in_bytes := 0 } }

/-- 8,000,000 reads per hour, everything else zero (the request-unit pricing
example). -/
def readHeavyWorkload : WorkloadDescription :=
  { read := { requests_per_hour := some 8000000, bytes_per_hour := 0 }
    write := { requests_per_hour := some 0, bytes_per_hour := 0 }
    egress := { requests_per_hour := none, bytes_per_hour := 0 }
    storage := { data_in_bytes := 0, index_in_bytes := 0 } }

/-- A workload whose read and write request rates are absent but whose byte
rates are nonzero, and the same workload with the absent rates made explicit
zeros. -/
def c2NoneWorkload : WorkloadDescription :=
  { read := { requests_per_hour := none, bytes_per_hour := 64 * 1024 * 1000 }
    write := { requests_per_hour := none, bytes_per_hour := 2048 }
    egress := { requests_per_hour := none, bytes_per_hour := 0 }
    storage := { data_in_bytes := 0, index_in_bytes := 0 } }

/-- `c2NoneWorkload` with the absent request rates replaced by explicit 0. -/
def c2ZeroWorkload : WorkloadDescription :=
  { read := { requests_per_hour := some 0, bytes_per_hour := 64 * 1024 * 1000 }
    write := { requests_per_hour := some 0, bytes_per_hour := 2048 }
    egress := { requests_per_hour := none, bytes_per_hour := 0 }
    storage := { data_in_bytes := 0, index_in_bytes := 0 } }

/-! ### Claims -/

/-- C1, counterexample: for region eu-central-1 with `read.requests_per_hour
= 8,000,000` and every other field 0, `estimate` returns `request_units_cost
= 83.52`, not `730 * 0.12 = 87.60` as the claim states: the monthly divisor
in the code is `MEGA = 1,048,576`, not `1,000,000`, so the monthly RU figure
is `1,000,000 * 730 / 1,048,576 = 696`. -/
theorem C1_counterexample :
    estimate "eu-central-1" [readHeavyWorkload] =
      .ok [{ storage_cost := 0, request_units_cost := 83.52, free_credit := 7.2 }]
    ∧ (83.52 : ℚ) ≠ 730 * 0.12 := by
  constructor
  · rw [estimate_valid "eu-central-1" (by decide)]
    norm_num [calculate, estimate_usages, WorkloadDescription.request_units_per_hour,
      WorkloadDescription.read_request_units_per_hour,
      WorkloadDescription.write_request_units_per_hour,
      KILO, MEGA, HOURS_PER_MONTH, readHeavyWorkload, storagePrice, ruPrice, freeCredit] <;>
    simp
  · norm_num

/-- C1, amended: for every workload the calculator computes
`request_units_in_million = (read_request_units_per_hour +
write_request_units_per_hour) * 730 / 1,048,576` (truncating division by
`MEGA = 2^20`, not by 1,000,000); in particular, for region eu-central-1 with
`read.requests_per_hour = 8,000,000` and every other field 0, `estimate`
returns `request_units_cost = 696 * 0.12 = 83.52`. -/
theorem C1_theorem :
    (∀ w : WorkloadDescription,
      (estimate_usages [w]).map WorkloadUsage.request_units_in_million
        = [(w.read_request_units_per_hour + w.write_request_units_per_hour) * 730 / 1048576])
    ∧ estimate "eu-central-1" [readHeavyWorkload] =
        .ok [{ storage_cost := 0, request_units_cost := 696 * 0.12, free_credit := 7.2 }] := by
  constructor
  · intro w; rfl
  · rw [estimate_valid "eu-central-1" (by decide)]
    norm_num [calculate, estimate_usages, WorkloadDescription.request_units_per_hour,
      WorkloadDescription.read_request_units_per_hour,
      WorkloadDescription.write_request_units_per_hour,
      KILO, MEGA, HOURS_PER_MONTH, readHeavyWorkload, storagePrice, ruPrice, freeCredit] <;>
    simp

/-- C2, counterexample: on a workload whose read and write
`requests_per_hour` are absent, the request-unit computation produces exactly
the same usages as on the workload with the absent rates replaced by explicit
0: the calculator substitutes 0 for a missing request rate
(`unwrap_or(0)`), instead of deriving it from the other fields. -/
theorem C2_counterexample :
    c2NoneWorkload.read.requests_per_hour = none
    ∧ c2NoneWorkload.write.requests_per_hour = none
    ∧ estimate_usages [c2NoneWorkload] = estimate_usages [c2ZeroWorkload] :=
  ⟨rfl, rfl, rfl⟩

/-- C2, amended: in the calculator's request-unit formulas an absent
`requests_per_hour` is replaced by 0 (`unwrap_or(0)`): for every workload,
making an absent read or write request rate an explicit 0 leaves
`estimate_usages` unchanged; nothing is derived from the other fields. -/
theorem C2_theorem :
    ∀ w : WorkloadDescription,
      estimate_usages [{ w with read := { w.read with requests_per_hour := none } }]
        = estimate_usages [{ w with read := { w.read with requests_per_hour := some 0 } }]
      ∧ estimate_usages [{ w with write := { w.write with requests_per_hour := none } }]
        = estimate_usages [{ w with write := { w.write with requests_per_hour := some 0 } }] :=
  fun _ => ⟨rfl, rfl⟩

/-- C4: `estimate` succeeds exactly on the five regions of the pricing table,
and on any other region string it fails with the invalid-region error
carrying the offending string — for every workload input, as the calculator's
only failure mode. -/
theorem C4_theorem (region : String) (workloads : List WorkloadDescription) :
    ((∃ es, estimate region workloads = .ok es) ↔ region ∈ validRegions)
    ∧ (region ∉ validRegions →
        estimate region workloads = .error (.invalidRegion region)) := by
  unfold estimate validRegions
  split_ifs with h1 h2 h3 h4 h5 <;> simp_all [List.mem_cons]

/-- C4, witness: `estimate` on the region string "not-a-region" fails with
the invalid-region error carrying that string. -/
theorem C4_witness :
    estimate "not-a-region" [] = .error (.invalidRegion "not-a-region") := by
  have h := C4_theorem "not-a-region" []
  exact h.2 (by decide)

/-- C5: on the all-zero workload, `estimate` returns `storage_cost = 0`,
`request_units_cost = 0` and the table's free credit for each of the five
regions; and for us-east-1 with 1 GiB of data and every other field 0 it
returns `storage_cost = 0.20`. -/
theorem C5_theorem :
    estimate "us-east-1" [zeroWorkload] =
      .ok [{ storage_cost := 0, request_units_cost := 0, free_credit := 6 }]
    ∧ estimate "us-west-2" [zeroWorkload] =
      .ok [{ storage_cost := 0, request_units_cost := 0, free_credit := 6 }]
    ∧ estimate "eu-central-1" [zeroWorkload] =
      .ok [{ storage_cost := 0, request_units_cost := 0, free_credit := 7.2 }]
    ∧ estimate "ap-southeast-1" [zeroWorkload] =
      .ok [{ storage_cost := 0, request_units_cost := 0, free_credit := 7.2 }]
    ∧ estimate "ap-northeast-1" [zeroWorkload] =
      .ok [{ storage_cost := 0, request_units_cost := 0, free_credit := 7.2 }]
    ∧ estimate "us-east-1" [gibWorkload] =
      .ok [{ storage_cost := 0.2, request_units_cost := 0, free_credit := 6 }] := by
  refine ⟨?_, ?_, ?_, ?_, ?_, ?_⟩ <;> rw [estimate_valid _ (by decide)] <;>
    norm_num [calculate, estimate_usages, WorkloadDescription.request_units_per_hour,
      WorkloadDescription.read_request_units_per_hour,
      WorkloadDescription.write_request_units_per_hour,
      KILO, MEGA, HOURS_PER_MONTH, zeroWorkload, gibWorkload,
      storagePrice, ruPrice, freeCredit] <;> simp

theorem request_units_mono_read (w : WorkloadDescription) {r r' : Nat} (h : r ≤ r') :
    (setReadRequests w r).request_units_per_hour
      ≤ (setReadRequests w r').request_units_per_hour := by
  simp only [setReadRequests, WorkloadDescription.request_units_per_hour,
    WorkloadDescription.read_request_units_per_hour,
    WorkloadDescription.write_request_units_per_hour, Option.getD_some]
  have := Nat.div_le_div_right (c := 8) h
  omega

theorem request_units_mono_write (w : WorkloadDescription) {q q' : Nat} (h : q ≤ q') :
    (setWriteRequests w q).request_units_per_hour
      ≤ (setWriteRequests w q').request_units_per_hour := by
  simp only [setWriteRequests, WorkloadDescription.request_units_per_hour,
    WorkloadDescription.read_request_units_per_hour,
    WorkloadDescription.write_request_units_per_hour, Option.getD_some]
  omega

theorem ruCostOf_mono (region : String) (hregion : region ∈ validRegions)
    {w w' : WorkloadDescription} (hegress : w.egress = w'.egress)
    (h : w.request_units_per_hour ≤ w'.request_units_per_hour) :
    ruCostOf region w ≤ ruCostOf region w' := by
  rw [ruCostOf_valid region hregion, ruCostOf_valid region hregion, hegress]
  have hp := (ruPrice_pos region).le
  have hm : (w.request_units_per_hour * HOURS_PER_MONTH / MEGA : Nat)
      ≤ w'.request_units_per_hour * HOURS_PER_MONTH / MEGA :=
    Nat.div_le_div_right (Nat.mul_le_mul_right _ h)
  have hmq : ((w.request_units_per_hour * HOURS_PER_MONTH / MEGA : Nat) : ℚ)
      ≤ ((w'.request_units_per_hour * HOURS_PER_MONTH / MEGA : Nat) : ℚ) :=
    Nat.cast_le.mpr hm
  exact mul_le_mul_of_nonneg_right (add_le_add_left hmq _) hp

/-- C3, counterexample: in region us-east-1, raising `storage.data_in_bytes`
from 0 to 1, or `read.requests_per_hour` from 0 to 1, or
`write.requests_per_hour` from 0 to 1, leaves the whole estimation unchanged
(the truncating unit conversions absorb the increase), so none of the three
strict-monotonicity statements of the claim holds. -/
theorem C3_counterexample :
    ((setDataBytes zeroWorkload 0).storage.data_in_bytes
        < (setDataBytes zeroWorkload 1).storage.data_in_bytes
      ∧ estimate "us-east-1" [setDataBytes zeroWorkload 0]
          = estimate "us-east-1" [setDataBytes zeroWorkload 1])
    ∧ ((setReadRequests zeroWorkload 0).read.requests_per_hour = some 0
      ∧ (setReadRequests zeroWorkload 1).read.requests_per_hour = some 1
      ∧ estimate "us-east-1" [setReadRequests zeroWorkload 0]
          = estimate "us-east-1" [setReadRequests zeroWorkload 1])
    ∧ ((setWriteRequests zeroWorkload 0).write.requests_per_hour = some 0
      ∧ (setWriteRequests zeroWorkload 1).write.requests_per_hour = some 1
      ∧ estimate "us-east-1" [setWriteRequests zeroWorkload 0]
          = estimate "us-east-1" [setWriteRequests zeroWorkload 1]) :=
  ⟨⟨Nat.zero_lt_one, rfl⟩, ⟨rfl, rfl, rfl⟩, ⟨rfl, rfl, rfl⟩⟩

/-- C3, amended: the monotonicity is non-strict. With all other fields fixed,
increasing `storage.data_in_bytes` does not decrease the returned
`storage_cost`, and increasing `read.requests_per_hour` or
`write.requests_per_hour` does not decrease the returned
`request_units_cost`, for every workload and every valid region; strictness
fails because of the truncating integer unit conversions. -/
theorem C3_theorem (region : String) (w : WorkloadDescription) (d d' r r' q q' : Nat)
    (hregion : region ∈ validRegions) (hd : d ≤ d') (hr : r ≤ r') (hq : q ≤ q') :
    storageCostOf region (setDataBytes w d) ≤ storageCostOf region (setDataBytes w d')
    ∧ ruCostOf region (setReadRequests w r) ≤ ruCostOf region (setReadRequests w r')
    ∧ ruCostOf region (setWriteRequests w q) ≤ ruCostOf region (setWriteRequests w q') := by
  refine ⟨?_, ?_, ?_⟩
  · rw [storageCostOf_valid region hregion, storageCostOf_valid region hregion]
    have hp := (storagePrice_pos region).le
    have hmono : ((setDataBytes w d).storage.data_in_bytes
          + (setDataBytes w d).storage.index_in_bytes) / MEGA
        ≤ ((setDataBytes w d').storage.data_in_bytes
          + (setDataBytes w d').storage.index_in_bytes) / MEGA := by
      apply Nat.div_le_div_right
      simp only [setDataBytes]
      omega
    have hq' : (_ : ℚ) ≤ _ := Nat.cast_le.mpr hmono
    exact div_le_div_of_nonneg_right (mul_le_mul_of_nonneg_right hq' hp) (by norm_num)
  · exact ruCostOf_mono region hregion rfl (request_units_mono_read w hr)
  · exact ruCostOf_mono region hregion rfl (request_units_mono_write w hq)

/-- C3, witness: the amended monotonicity at region us-east-1, base the
all-zero workload, data 0 → 1 GiB and request rates 0 → 8,000,000. -/
theorem C3_witness :
    storageCostOf "us-east-1" (setDataBytes zeroWorkload 0)
      ≤ storageCostOf "us-east-1" (setDataBytes zeroWorkload (1024 * 1024 * 1024))
    ∧ ruCostOf "us-east-1" (setReadRequests zeroWorkload 0)
      ≤ ruCostOf "us-east-1" (setReadRequests zeroWorkload 8000000)
    ∧ ruCostOf "us-east-1" (setWriteRequests zeroWorkload 0)
      ≤ ruCostOf "us-east-1" (setWriteRequests zeroWorkload 8000000) :=
  C3_theorem "us-east-1" zeroWorkload 0 (1024 * 1024 * 1024) 0 8000000 0 8000000
    (by decide) (by decide) (by decide) (by decide)

/-! ### Spec-side formulas for the Shape A normalizer (written from the
claim's wording, to be compared with the source definitions). -/

/-- Spec: `duration_minutes = max(1, minutes(window_end − window_start))`. -/
def spec_duration_minutes (window_start window_end : Int) : Nat :=
  (max 1 (window_end - window_start)).toNat

/-- Spec: `bytes_per_hour = 60 * average_row_size_bytes * rows_in_window / duration_minutes`. -/
def spec_bytes_per_hour (average_row_size_bytes rows_in_window duration_minutes : Nat) : Nat :=
  60 * average_row_size_bytes * rows_in_window / duration_minutes

/-- Spec: `requests_per_hour = max(1, 60 * request_count_in_window / duration_minutes)`. -/
def spec_requests_per_hour (request_count_in_window duration_minutes : Nat) : Nat :=
  max 1 (60 * request_count_in_window / duration_minutes)

/-- Spec: `region_count_estimate = total_storage_bytes / 256MiB`. -/
def spec_region_count_estimate (total_storage_bytes : Nat) : Nat :=
  total_storage_bytes / (256 * 1024 * 1024)

/-- Spec: the amplification factor
`max(1, bytes_per_request * region_count_estimate / total_storage_bytes)`. -/
def spec_amplification (bytes_per_request region_count total_storage_bytes : Nat) : Nat :=
  max 1 (bytes_per_request * region_count / total_storage_bytes)

/-- C6: the Shape A (MySQL statement-digest) normalizer computes, for each of
read and write, `bytes_per_hour = 60 * average_row_size * rows_in_window /
duration_minutes`, `requests_per_hour = max(1, 60 * request_count /
duration_minutes)`, and emits as final request rate that `requests_per_hour`
multiplied by the amplification factor `max(1, bytes_per_request *
region_count_estimate / total_storage_bytes)`, where `region_count_estimate =
total_storage_bytes / 256MiB` and `duration_minutes = max(1, minutes(end −
start))`. -/
theorem C6_theorem (t : TablesInformation) (s : MySQLStatementsSummary) :
    (WorkloadDescription.mysql t s).read.bytes_per_hour
      = spec_bytes_per_hour t.average_row_size_in_bytes s.read_rows
          (spec_duration_minutes s.start_time s.end_time)
    ∧ (WorkloadDescription.mysql t s).read.requests_per_hour
      = some (spec_requests_per_hour s.read_queries
            (spec_duration_minutes s.start_time s.end_time)
          * spec_amplification
              (spec_bytes_per_hour t.average_row_size_in_bytes s.read_rows
                  (spec_duration_minutes s.start_time s.end_time)
                / spec_requests_per_hour s.read_queries
                    (spec_duration_minutes s.start_time s.end_time))
              (spec_region_count_estimate t.total_storage_in_bytes)
              t.total_storage_in_bytes)
    ∧ (WorkloadDescription.mysql t s).write.bytes_per_hour
      = spec_bytes_per_hour t.average_row_size_in_bytes s.write_rows
          (spec_duration_minutes s.start_time s.end_time)
    ∧ (WorkloadDescription.mysql t s).write.requests_per_hour
      = some (spec_requests_per_hour s.write_queries
            (spec_duration_minutes s.start_time s.end_time)
          * spec_amplification
              (spec_bytes_per_hour t.average_row_size_in_bytes s.write_rows
                  (spec_duration_minutes s.start_time s.end_time)
                / spec_requests_per_hour s.write_queries
                    (spec_duration_minutes s.start_time s.end_time))
              (spec_region_count_estimate t.total_storage_in_bytes)
              t.total_storage_in_bytes) := by
  have hdur : spec_duration_minutes s.start_time s.end_time = s.duration_in_minutes := by
    simp [spec_duration_minutes, MySQLStatementsSummary.duration_in_minutes, max_comm]
  refine ⟨?_, ?_, ?_, ?_⟩ <;>
    simp [WorkloadDescription.mysql, hdur, spec_bytes_per_hour, spec_requests_per_hour,
      spec_region_count_estimate, spec_amplification,
      mysql_read_bytes_per_hour, mysql_read_queries_per_hour, mysql_read_regions_per_query,
      mysql_write_bytes_per_hour, mysql_write_queries_per_hour, mysql_write_regions_per_query,
      TablesInformation.estimated_number_of_regions, TARGET_REGION_SIZE,
      MINUTES_PER_HOUR, max_comm]

/-- C7: the Shape B (TiDB) normalizer takes, when no statement summary is
present, `write.bytes_per_hour` directly from the pre-aggregated system
metrics and defaults `egress.bytes_per_hour` to 0; and whether or not a
summary is present, `read.requests_per_hour`, `read.bytes_per_hour` and
`write.requests_per_hour` come directly from the system metrics, with no
amplification applied. -/
theorem C7_theorem (t : TablesInformation) (metrics : TiDBSystemMetrics) :
    ((WorkloadDescription.tidb t none metrics).write.bytes_per_hour
        = metrics.write_bytes_per_hour
      ∧ (WorkloadDescription.tidb t none metrics).egress.bytes_per_hour = 0)
    ∧ ∀ summary : Option TiDBStatementsSummary,
        (WorkloadDescription.tidb t summary metrics).read.requests_per_hour
            = some metrics.read_requests_per_hour
        ∧ (WorkloadDescription.tidb t summary metrics).read.bytes_per_hour
            = metrics.read_bytes_per_hour
        ∧ (WorkloadDescription.tidb t summary metrics).write.requests_per_hour
            = some metrics.write_requests_per_hour := by
  refine ⟨⟨rfl, rfl⟩, ?_⟩
  intro summary
  cases summary <;> exact ⟨rfl, rfl, rfl⟩

/-- C8: both normalizers are total functions of their inputs (they are plain
definitions with no failure path), and no division by zero occurs for any
input: every divisor appearing in `WorkloadDescription.mysql` and
`WorkloadDescription.tidb` — the clamped window duration, the clamped row
count, the clamped total storage, the clamped read and write request rates,
and the constant 256MiB region size — is at least 1, even when every numeric
field is 0 or absent and the window end does not exceed its start. -/
theorem C8_theorem (t : TablesInformation) (s : MySQLStatementsSummary)
    (ts : TiDBStatementsSummary) :
    0 < s.duration_in_minutes
    ∧ 0 < max (t.total_rows.getD 0) 1
    ∧ 0 < t.total_storage_in_bytes
    ∧ 0 < mysql_read_queries_per_hour s
    ∧ 0 < mysql_write_queries_per_hour s
    ∧ 0 < TARGET_REGION_SIZE
    ∧ 0 < ts.duration_in_minutes
    ∧ 0 < max 1 (t.total_rows.getD 0) := by
  refine ⟨?_, ?_, ?_, ?_, ?_, ?_, ?_, ?_⟩
  · have h := le_max_right (s.end_time - s.start_time) (1 : Int)
    unfold MySQLStatementsSummary.duration_in_minutes
    omega
  · exact Nat.lt_of_lt_of_le Nat.one_pos (le_max_right _ _)
  · exact Nat.lt_of_lt_of_le Nat.one_pos (le_max_right _ _)
  · exact Nat.lt_of_lt_of_le Nat.one_pos (le_max_right _ _)
  · exact Nat.lt_of_lt_of_le Nat.one_pos (le_max_right _ _)
  · norm_num [TARGET_REGION_SIZE]
  · have h := le_max_right (ts.end_time - ts.start_time) (1 : Int)
    unfold TiDBStatementsSummary.duration_in_minutes
    omega
  · exact Nat.lt_of_lt_of_le Nat.one_pos (le_max_left _ _)

/-- C9: the unit conversions truncate, so a workload whose total storage
footprint is below 1 MiB prices its storage at exactly 0 in every valid
region, and an hourly request-unit total below 1,048,576/730 (that is, a
total whose monthly product with 730 stays below 2^20) contributes exactly 0
request-unit millions. -/
theorem C9_theorem (w : WorkloadDescription) (region : String)
    (hregion : region ∈ validRegions) :
    (w.storage.data_in_bytes + w.storage.index_in_bytes < 1048576 →
      storageCostOf region w = 0)
    ∧ (w.request_units_per_hour * 730 < 1048576 →
      (estimate_usages [w]).map WorkloadUsage.request_units_in_million = [0]) := by
  constructor
  · intro h
    rw [storageCostOf_valid region hregion]
    have h0 : (w.storage.data_in_bytes + w.storage.index_in_bytes) / MEGA = 0 :=
      Nat.div_eq_of_lt (by simpa [MEGA, KILO] using h)
    rw [h0]
    norm_num
  · intro h
    have h0 : w.request_units_per_hour * HOURS_PER_MONTH / MEGA = 0 :=
      Nat.div_eq_of_lt (by simpa [MEGA, KILO, HOURS_PER_MONTH] using h)
    simp [estimate_usages, h0]

/-- A workload with 1,048,575 bytes of storage and 8 reads per hour (one
request unit per hour, 730 per month). -/
def c9Workload : WorkloadDescription :=
  { read := { requests_per_hour := some 8, bytes_per_hour := 0 }
    write := { requests_per_hour := some 0, bytes_per_hour := 0 }
    egress := { requests_per_hour := none, bytes_per_hour := 0 }
    storage := { data_in_bytes := 1048575, index_in_bytes := 0 } }

/-- C9, witness: the sub-MiB workload `c9Workload` (1,048,575 storage bytes,
one request unit per hour) gets storage cost 0 in us-east-1 and contributes 0
request-unit millions. -/
theorem C9_witness :
    storageCostOf "us-east-1" c9Workload = 0
    ∧ (estimate_usages [c9Workload]).map WorkloadUsage.request_units_in_million = [0] :=
  ⟨(C9_theorem c9Workload "us-east-1" (by decide)).1 (by decide),
   (C9_theorem c9Workload "us-east-1" (by decide)).2 (by decide)⟩

theorem mysql_fold_write (init : MySQLStatementsSummary)
    (l : List MySQLStatementSummary) :
    (l.foldl mysql_summary_step init).write_queries
      = init.write_queries
        + ((l.filter fun st => is_write_pattern st.sql).map
            MySQLStatementSummary.count).sum := by
  induction l generalizing init with
  | nil => simp
  | cons a l ih =>
    rw [List.foldl_cons, ih]
    by_cases h : is_write_pattern a.sql <;>
      simp [mysql_summary_step, h, List.filter_cons] <;> omega

theorem mysql_fold_read (init : MySQLStatementsSummary)
    (l : List MySQLStatementSummary) :
    (l.foldl mysql_summary_step init).read_queries
      = init.read_queries
        + ((l.filter fun st => !is_write_pattern st.sql).map
            MySQLStatementSummary.count).sum := by
  induction l generalizing init with
  | nil => simp
  | cons a l ih =>
    rw [List.foldl_cons, ih]
    by_cases h : is_write_pattern a.sql <;>
      simp [mysql_summary_step, h, List.filter_cons] <;> omega

theorem sum_filter_split (l : List MySQLStatementSummary)
    (p : MySQLStatementSummary → Bool) :
    ((l.filter p).map MySQLStatementSummary.count).sum
      + ((l.filter fun st => !p st).map MySQLStatementSummary.count).sum
      = (l.map MySQLStatementSummary.count).sum := by
  induction l with
  | nil => simp
  | cons a l ih =>
    by_cases h : p a <;> simp [List.filter_cons, h] <;> omega

/-- C10: aggregating the MySQL statement-digest summary adds a digest's
execution count to `write_queries` exactly when its digest text begins with
the uppercase prefix "INSERT ", "DELETE " or "UPDATE " (trailing space
included, the anchored regex of the source), and to `read_queries` otherwise
— a REPLACE digest counts as read — and the partition is total: the two
counters sum to the total execution count. -/
theorem C10_theorem (now seven_days_ago : Int)
    (stmts : List MySQLStatementSummary) :
    (read_mysql_statements_summary now seven_days_ago stmts).write_queries
        = ((stmts.filter fun st => is_write_pattern st.sql).map
            MySQLStatementSummary.count).sum
    ∧ (read_mysql_statements_summary now seven_days_ago stmts).read_queries
        = ((stmts.filter fun st => !is_write_pattern st.sql).map
            MySQLStatementSummary.count).sum
    ∧ (read_mysql_statements_summary now seven_days_ago stmts).write_queries
        + (read_mysql_statements_summary now seven_days_ago stmts).read_queries
        = (stmts.map MySQLStatementSummary.count).sum
    ∧ is_write_pattern "INSERT INTO t VALUES (?)" = true
    ∧ is_write_pattern "insert into t values (?)" = false
    ∧ is_write_pattern "REPLACE INTO t VALUES (?)" = false := by
  have hw : (read_mysql_statements_summary now seven_days_ago stmts).write_queries
      = ((stmts.filter fun st => is_write_pattern st.sql).map
          MySQLStatementSummary.count).sum := by
    unfold read_mysql_statements_summary
    split
    · next h => simp [List.isEmpty_iff.mp h]
    · next h => rw [mysql_fold_write]; simp
  have hr : (read_mysql_statements_summary now seven_days_ago stmts).read_queries
      = ((stmts.filter fun st => !is_write_pattern st.sql).map
          MySQLStatementSummary.count).sum := by
    unfold read_mysql_statements_summary
    split
    · next h => simp [List.isEmpty_iff.mp h]
    · next h => rw [mysql_fold_read]; simp
  refine ⟨hw, hr, ?_, by decide, by decide, by decide⟩
  rw [hw, hr]
  exact sum_filter_split stmts _

end SCC
